import Mathlib

/-!
Shallow embedding of the go-backend-practice connection-pool core
(package db_connection, file pool.go, and its orchestrating entrypoint
practice/db_connection/cmd/main.go).

Go errors are modelled as an inductive type: sentinel values, plus a
wrap constructor mirroring fmt.Errorf with the %w verb.  Equality of
the Lean values models the Go == comparison on the sentinel
context.DeadlineExceeded; errorsIs models errors.Is (unwrapping).

The external world (the MySQL store) is modelled by explicit
parameters: a World record saying whether sql.Open and db.Ping fail,
and a StoreReply saying how the store answers one SELECT SLEEP query.
Time is time.Duration, an Int of nanoseconds; SELECT SLEEP(d) run
under a context deadline a returns context.DeadlineExceeded exactly
when a < d (the deadline fires before the store returns).
-/

namespace GoBackendPractice

/-- Go error values as seen by the pool code: the two sentinel errors the
code can meet (context.DeadlineExceeded from an expired context, and the
database/sql closed-pool error), driver open and ping failures, and the
fmt.Errorf wrapping with %w used throughout pool.go. -/
inductive GoError where
  | deadlineExceeded : GoError
  | databaseClosed : GoError
  | openError (msg : String) : GoError
  | pingError (msg : String) : GoError
  | wrap (msg : String) (err : GoError) : GoError
  deriving DecidableEq, Repr

/-- Model of errors.Is: walk the %w chain looking for the target value. -/
def errorsIs : GoError → GoError → Bool
  | .wrap m e, target => (GoError.wrap m e == target) || errorsIs e target
  | e, target => e == target

/-- Configuration record PoolConfig from pool.go. Durations are Int
nanoseconds, as time.Duration is int64. -/
structure PoolConfig where
  MaxOpenConns : Int
  MaxIdleConns : Int
  ConnMaxLifetime : Int
  ConnMaxIdleTime : Int
  deriving DecidableEq, Repr

/-- State of one sql.DB handle: the four limits set by the Set... calls,
whether Close has been called, and the counters behind sql.DBStats. -/
structure SQLDB where
  maxOpenConns : Int
  maxIdleConns : Int
  connMaxLifetime : Int
  connMaxIdleTime : Int
  closed : Bool
  openConnections : Int
  inUse : Int
  idle : Int
  waitCount : Int
  waitDuration : Int
  maxIdleClosed : Int
  maxIdleTimeClosed : Int
  maxLifetimeClosed : Int
  deriving DecidableEq, Repr

/-- Snapshot type sql.DBStats as read by GetStats. -/
structure DBStats where
  MaxOpenConnections : Int
  OpenConnections : Int
  InUse : Int
  Idle : Int
  WaitCount : Int
  WaitDuration : Int
  MaxIdleClosed : Int
  MaxIdleTimeClosed : Int
  MaxLifetimeClosed : Int
  deriving DecidableEq, Repr

/-- Model of sql.DB.Stats: a pure read of the counters into a snapshot. -/
def SQLDB.Stats (db : SQLDB) : DBStats :=
  ⟨db.maxOpenConns, db.openConnections, db.inUse, db.idle, db.waitCount,
   db.waitDuration, db.maxIdleClosed, db.maxIdleTimeClosed, db.maxLifetimeClosed⟩

/-- Behaviour of the external MySQL store during construction: whether
sql.Open rejects the DSN as malformed, and whether the db.Ping probe fails. -/
structure World where
  openErr : Option String
  pingErr : Option String
  deriving DecidableEq, Repr

/-- Fresh handle returned by a successful sql.Open: default limits, open,
all counters zero. -/
def freshDB : SQLDB :=
  ⟨0, 2, 0, 0, false, 0, 0, 0, 0, 0, 0, 0, 0⟩

/-- Model of sql.Open("mysql", dsn): fails exactly when the DSN is
malformed (the driver parses it eagerly), otherwise allocates a handle. -/
def sqlOpen (w : World) : Except GoError SQLDB :=
  match w.openErr with
  | some m => .error (.openError m)
  | none => .ok freshDB

/-- Model of db.Ping: the closed check of database/sql comes first, then
the connectivity probe against the store. -/
def SQLDB.Ping (w : World) (db : SQLDB) : Option GoError :=
  if db.closed then some .databaseClosed
  else match w.pingErr with
    | some m => some (.pingError m)
    | none => none

/-- Pool type DBPool from pool.go: wraps the one sql.DB handle. -/
structure DBPool where
  DB : SQLDB
  deriving DecidableEq, Repr

/-- Result of NewDBPool, keeping also the fate of the handle allocated by
sql.Open: openedHandle is the handle as it exists when the function
returns (some h even on the ping-failure path, since that path never
calls db.Close). -/
structure NewPoolResult where
  pool : Option DBPool
  err : Option GoError
  openedHandle : Option SQLDB
  deriving DecidableEq, Repr

/-- Embedding of NewDBPool: open the handle, apply the four configured
limits, ping; return the wrapped error of the failing step, else the pool. -/
def NewDBPool (w : World) (config : PoolConfig) : NewPoolResult :=
  match sqlOpen w with
  | .error e => ⟨none, some (.wrap "failed to open database" e), none⟩
  | .ok db0 =>
    let db : SQLDB :=
      { db0 with
        maxOpenConns := config.MaxOpenConns
        maxIdleConns := config.MaxIdleConns
        connMaxLifetime := config.ConnMaxLifetime
        connMaxIdleTime := config.ConnMaxIdleTime }
    match db.Ping w with
    | some e => ⟨none, some (.wrap "failed to ping database" e), some db⟩
    | none => ⟨some ⟨db⟩, none, some db⟩

/-- Embedding of DBPool.Close: closes the underlying handle. database/sql
reports no error from the close itself here. -/
def DBPool.Close (p : DBPool) : DBPool × Option GoError :=
  ({ p with DB := { p.DB with closed := true } }, none)

/-- Embedding of DBPool.GetStats: return p.DB.Stats(). -/
def DBPool.GetStats (p : DBPool) : DBStats :=
  p.DB.Stats

/-- Embedding of DBPool.PrintStats: read the snapshot and format the log
lines; the pool is returned unchanged, mirroring that the Go method only
reads. -/
def DBPool.PrintStats (p : DBPool) : List String × DBPool :=
  let stats := p.GetStats
  (["Connection Pool Stats:",
    "  Open Connections: " ++ toString stats.OpenConnections,
    "  In Use: " ++ toString stats.InUse,
    "  Idle: " ++ toString stats.Idle,
    "  Wait Count: " ++ toString stats.WaitCount,
    "  Wait Duration: " ++ toString stats.WaitDuration,
    "  Max Idle Closed: " ++ toString stats.MaxIdleClosed,
    "  Max Idle Time Closed: " ++ toString stats.MaxIdleTimeClosed,
    "  Max Lifetime Closed: " ++ toString stats.MaxLifetimeClosed], p)

/-- Iterated PrintStats, as the orchestrator polls it on every tick. -/
def printStatsIter : Nat → DBPool → List String × DBPool
  | 0, p => ([], p)
  | n + 1, p =>
    let (lines, p1) := p.PrintStats
    let (rest, p2) := printStatsIter n p1
    (lines ++ rest, p2)

/-- How the store answers one SELECT SLEEP(d) query from one client:
either it executes the sleep normally, or it reports an execution fault
of its own. -/
inductive StoreReply where
  | sleeps : StoreReply
  | fault (e : GoError) : StoreReply
  deriving DecidableEq, Repr

/-- Model of db.QueryContext on SELECT SLEEP(queryDuration) under a
context whose deadline is abortAfter from now: database/sql first fails
on a closed pool; a store fault is surfaced as the query error;
otherwise the call returns context.DeadlineExceeded exactly when the
deadline fires before the sleep finishes. -/
def SQLDB.queryContext (db : SQLDB) (reply : StoreReply)
    (abortAfter queryDuration : Int) : Option GoError :=
  if db.closed then some .databaseClosed
  else match reply with
    | .fault e => some e
    | .sleeps => if abortAfter < queryDuration then some .deadlineExceeded else none

/-- Classification block of SimulateClientAbort: the Go code compares the
error to the sentinel with ==, so only the exact sentinel value takes the
client-abort branch; everything else, wrapped deadline errors included,
takes the generic query-failed branch. -/
def abortClassify (err : GoError) : GoError :=
  if err = GoError.deadlineExceeded then .wrap "client abort simulated" err
  else .wrap "query failed" err

/-- Embedding of DBPool.SimulateClientAbort: run the sleep query under
the abortAfter deadline; on error, classify; on success return nil. -/
def DBPool.SimulateClientAbort (p : DBPool) (reply : StoreReply)
    (queryDuration abortAfter : Int) : Option GoError :=
  match p.DB.queryContext reply abortAfter queryDuration with
  | some err => some (abortClassify err)
  | none => none

/-- Recogniser for the client-abort error kind produced by
SimulateClientAbort (the wrap whose message is the client-abort one). -/
def isClientAbortError : Option GoError → Bool
  | some (.wrap msg _) => msg == "client abort simulated"
  | _ => false

/-- Recogniser for the generic query-failure error kind produced by
SimulateClientAbort. -/
def isQueryFailedError : Option GoError → Bool
  | some (.wrap msg _) => msg == "query failed"
  | _ => false

/-- Model of sync.WaitGroup.Add: the counter moves by delta; Go panics
with a negative-counter message when the counter goes below zero. -/
def wgAddCheck (counter delta : Int) : Except String Int :=
  let c := counter + delta
  if c < 0 then .error "sync: negative WaitGroup counter" else .ok c

/-- Result of running SimulateMultipleClientAborts to quiescence: the
WaitGroup counter after every spawned goroutine has done its Done, and
the recorded per-client outcomes. -/
structure MultiAbortResult where
  wgCounter : Int
  outcomes : List (Option GoError)
  deriving DecidableEq, Repr

/-- Embedding of DBPool.SimulateMultipleClientAborts, run to quiescence:
wg.Add(numClients) (a Go panic becomes Except.error), then the loop for
i := 0; i < numClients; i++ spawns max(numClients, 0) goroutines, each
of which runs SimulateClientAbort once (with its own store reply) and
does one wg.Done. -/
def DBPool.SimulateMultipleClientAborts (p : DBPool) (numClients : Int)
    (replies : Nat → StoreReply) (queryDuration abortAfter : Int)
    (wg : Int) : Except String MultiAbortResult :=
  match wgAddCheck wg numClients with
  | .error e => .error e
  | .ok wg1 =>
    let outs := (List.range numClients.toNat).map
      (fun i => p.SimulateClientAbort (replies i) queryDuration abortAfter)
    .ok ⟨wg1 - (numClients.toNat : Int), outs⟩

/-- Interleaving state of one run of SimulateMultipleClientAborts against
a caller that waits on the WaitGroup: whether the spawning call has
returned to its caller, how many spawned clients are still running, the
outcomes recorded so far (one per finished client), and the WaitGroup
counter. -/
structure SimState where
  spawnReturned : Bool
  pending : Nat
  outcomes : List (Option GoError)
  wg : Int
  deriving DecidableEq, Repr

/-- State right after SimulateMultipleClientAborts has done wg.Add(n) and
launched its n goroutines, none finished yet, the call itself not yet
returned. -/
def initSim (n : Nat) : SimState :=
  ⟨false, n, [], (n : Int)⟩

/-- Interleaving steps: the spawning call returns to its caller (it does
not wait for its goroutines), or one running client finishes its
SimulateClientAbort, records the outcome, and does wg.Done. -/
inductive SimStep (p : DBPool) (queryDuration abortAfter : Int) :
    SimState → SimState → Prop
  | spawnReturn (s : SimState) (h : s.spawnReturned = false) :
      SimStep p queryDuration abortAfter s { s with spawnReturned := true }
  | clientDone (s : SimState) (r : StoreReply) (h : 0 < s.pending) :
      SimStep p queryDuration abortAfter s
        ⟨s.spawnReturned, s.pending - 1,
         p.SimulateClientAbort r queryDuration abortAfter :: s.outcomes,
         s.wg - 1⟩

/-- Reflexive-transitive closure of the interleaving steps. -/
inductive SimReach (p : DBPool) (queryDuration abortAfter : Int) :
    SimState → SimState → Prop
  | refl (s : SimState) : SimReach p queryDuration abortAfter s s
  | tail {s t u : SimState} : SimReach p queryDuration abortAfter s t →
      SimStep p queryDuration abortAfter t u →
      SimReach p queryDuration abortAfter s u

/-- Condition under which the caller of wg.Wait is unblocked: the
spawning call has returned (Wait is the next statement after it) and the
WaitGroup counter is back to zero. -/
def waitReturns (s : SimState) : Prop :=
  s.spawnReturned = true ∧ s.wg = 0

/-- Events the orchestrator in cmd/main.go can emit once construction
succeeded. -/
inductive Event where
  | statsPrinted : Event
  | simulatorLaunched : Event
  | simulationFinished : Event
  deriving DecidableEq, Repr

/-- Process outcome of cmd/main.go: either log.Fatalf killed the run
during pool construction, or the run completed. -/
inductive MainOutcome where
  | fatalStart (err : GoError) : MainOutcome
  | done : MainOutcome
  deriving DecidableEq, Repr

/-- Literal PoolConfig from cmd/main.go (durations in nanoseconds). -/
def mainConfig : PoolConfig :=
  ⟨25, 1, 1000000000, 1000000000⟩

/-- Embedding of func main from cmd/main.go: construct the pool; on error
log.Fatalf aborts the run with no further activity; otherwise print
stats, launch the simulator goroutine, and poll PrintStats each ticker
tick until the simulator signals completion on the channel (ticks says
how many ticks fire before the signal wins the select). -/
def mainGo (w : World) (ticks : Nat) : MainOutcome × List Event :=
  match NewDBPool w mainConfig with
  | ⟨_, some e, _⟩ => (.fatalStart e, [])
  | ⟨_, none, _⟩ =>
    (.done,
      [Event.statsPrinted, Event.simulatorLaunched] ++
        List.replicate ticks Event.statsPrinted ++ [Event.simulationFinished])

/-- Handle state produced by a successful NewDBPool construction: the
fresh sql.Open handle with the four configured limits applied. -/
def configuredDB (config : PoolConfig) : SQLDB :=
  { freshDB with
    maxOpenConns := config.MaxOpenConns
    maxIdleConns := config.MaxIdleConns
    connMaxLifetime := config.ConnMaxLifetime
    connMaxIdleTime := config.ConnMaxIdleTime }

/-- Concrete open pool, configured exactly as cmd/main.go configures it. -/
def samplePool : DBPool :=
  ⟨configuredDB mainConfig⟩

/-- Outcome of one client of the cmd/main.go scenario (queryDuration
15 minutes, abortAfter 10 minutes, in nanoseconds) on the sample pool. -/
def sampleOutcome : Option GoError :=
  samplePool.SimulateClientAbort .sleeps 900000000000 600000000000

end GoBackendPractice

namespace GoBackendPractice

/-- Invariant of the interleaving semantics of one simulation run: the
WaitGroup counter always equals the number of clients still running, and
the finished clients (one recorded outcome each) plus the running ones
account for all n spawned clients. -/
theorem simReach_invariant {p : DBPool} {qd aa : Int} {n : Nat} {s : SimState}
    (h : SimReach p qd aa (initSim n) s) :
    s.wg = (s.pending : Int) ∧ s.pending + s.outcomes.length = n := by
  induction h with
  | refl => simp [initSim]
  | tail _ step ih =>
    cases step with
    | spawnReturn ht => simpa using ih
    | clientDone r ht =>
      obtain ⟨h1, h2⟩ := ih
      dsimp only at *
      constructor
      · omega
      · simp only [List.length_cons]
        omega

/-- C1, counterexample: SimulateMultipleClientAborts itself does NOT
return to its caller only after all clients have finished. With n = 5
clients of the cmd/main.go scenario, the state in which the spawning
call has already returned while all 5 clients are still running and no
outcome is recorded is reachable, refuting the claim as stated. -/
theorem C1_spawn_returns_before_clients_finish :
    ¬ (∀ s : SimState,
        SimReach samplePool 900000000000 600000000000 (initSim 5) s →
        s.spawnReturned = true → s.pending = 0 ∧ s.outcomes.length = 5) := by
  intro hall
  have hreach : SimReach samplePool 900000000000 600000000000 (initSim 5)
      ⟨true, 5, [], 5⟩ :=
    SimReach.tail (SimReach.refl _) (SimStep.spawnReturn _ rfl)
  have hcontra := hall ⟨true, 5, [], 5⟩ hreach rfl
  exact absurd hcontra.1 (by decide)

/-- C1, amended: SimulateMultipleClientAborts returns immediately after
spawning; it is the wg.Wait of its caller (simulateClientAborts passes
the wait group for exactly this purpose) that returns only after all n
spawned clients have finished, at which point exactly n per-client
outcomes have been recorded — no leaked or missing tasks, for every
n > 0, in particular n in a set containing 1, 5 and 50. -/
theorem C1_wait_joins_all_clients (p : DBPool) (qd aa : Int) (n : Nat)
    (s : SimState) (_hn : 0 < n)
    (h : SimReach p qd aa (initSim n) s) (hw : waitReturns s) :
    s.pending = 0 ∧ s.outcomes.length = n := by
  obtain ⟨h1, h2⟩ := simReach_invariant h
  obtain ⟨hsp, hwg⟩ := hw
  omega

/-- C1, witness: a complete interleaving of the cmd/main.go scenario with
5 clients — the spawn returns, then the 5 clients finish one by one —
reaches a wait-unblocked state, and the theorem yields that all clients
are joined with exactly 5 recorded outcomes. -/
theorem C1_wait_joins_all_clients_witness :
    0 < 5 ∧
    ((⟨true, 0, List.replicate 5 sampleOutcome, 0⟩ : SimState).pending = 0 ∧
     (⟨true, 0, List.replicate 5 sampleOutcome, 0⟩ : SimState).outcomes.length = 5) := by
  refine ⟨by decide, ?_⟩
  refine C1_wait_joins_all_clients samplePool 900000000000 600000000000 5
    ⟨true, 0, List.replicate 5 sampleOutcome, 0⟩ (by decide) ?_ ⟨rfl, rfl⟩
  have r1 : SimReach samplePool 900000000000 600000000000 (initSim 5)
      ⟨true, 5, [], 5⟩ :=
    SimReach.tail (SimReach.refl _) (SimStep.spawnReturn _ rfl)
  have r2 : SimReach samplePool 900000000000 600000000000 (initSim 5)
      ⟨true, 4, [sampleOutcome], 4⟩ :=
    SimReach.tail r1 (SimStep.clientDone _ .sleeps (by decide))
  have r3 : SimReach samplePool 900000000000 600000000000 (initSim 5)
      ⟨true, 3, [sampleOutcome, sampleOutcome], 3⟩ :=
    SimReach.tail r2 (SimStep.clientDone _ .sleeps (by decide))
  have r4 : SimReach samplePool 900000000000 600000000000 (initSim 5)
      ⟨true, 2, [sampleOutcome, sampleOutcome, sampleOutcome], 2⟩ :=
    SimReach.tail r3 (SimStep.clientDone _ .sleeps (by decide))
  have r5 : SimReach samplePool 900000000000 600000000000 (initSim 5)
      ⟨true, 1, [sampleOutcome, sampleOutcome, sampleOutcome, sampleOutcome], 1⟩ :=
    SimReach.tail r4 (SimStep.clientDone _ .sleeps (by decide))
  exact SimReach.tail r5 (SimStep.clientDone _ .sleeps (by decide))

/-- C2: when the deadline elapses before the store returns (open pool,
abortAfter < queryDuration, store sleeping normally), SimulateClientAbort
reports the client-abort error and not the query-failure error, and no
error value is ever both kinds at once: the two error paths are disjoint. -/
theorem C2_abort_error_distinct_from_query_error (p : DBPool) (qd aa : Int)
    (hopen : p.DB.closed = false) (hlt : aa < qd) :
    isClientAbortError (p.SimulateClientAbort .sleeps qd aa) = true ∧
    isQueryFailedError (p.SimulateClientAbort .sleeps qd aa) = false ∧
    (∀ r : Option GoError,
      ¬(isClientAbortError r = true ∧ isQueryFailedError r = true)) := by
  refine ⟨?_, ?_, ?_⟩
  · simp [DBPool.SimulateClientAbort, SQLDB.queryContext, hopen, hlt,
      abortClassify, isClientAbortError]
  · simp [DBPool.SimulateClientAbort, SQLDB.queryContext, hopen, hlt,
      abortClassify, isQueryFailedError]
  · rintro r ⟨h1, h2⟩
    cases r with
    | none => simp [isClientAbortError] at h1
    | some e =>
      cases e with
      | wrap msg err =>
        simp [isClientAbortError] at h1
        simp [isQueryFailedError] at h2
        rw [h1] at h2
        exact absurd h2 (by decide)
      | deadlineExceeded => simp [isClientAbortError] at h1
      | databaseClosed => simp [isClientAbortError] at h1
      | openError m => simp [isClientAbortError] at h1
      | pingError m => simp [isClientAbortError] at h1

/-- C2, witness: the cmd/main.go scenario (15 minutes query, 10 minutes
abort) on the sample pool takes the client-abort path. -/
theorem C2_abort_error_distinct_witness :
    samplePool.DB.closed = false ∧ (600000000000 : Int) < 900000000000 ∧
    isClientAbortError
      (samplePool.SimulateClientAbort .sleeps 900000000000 600000000000) = true :=
  ⟨rfl, by decide,
    (C2_abort_error_distinct_from_query_error samplePool 900000000000 600000000000
      rfl (by decide)).1⟩

/-- C3: for a client with abortAfter < queryDuration on an open pool whose
store executes the sleep normally (no unrelated fault), the outcome is
deterministically the client-abort error — in particular it is not the
nil return that marks a Completed query. -/
theorem C3_short_deadline_always_aborts (p : DBPool) (qd aa : Int)
    (hopen : p.DB.closed = false) (hlt : aa < qd) :
    p.SimulateClientAbort .sleeps qd aa =
      some (.wrap "client abort simulated" .deadlineExceeded) ∧
    p.SimulateClientAbort .sleeps qd aa ≠ none := by
  constructor <;>
    simp [DBPool.SimulateClientAbort, SQLDB.queryContext, hopen, hlt, abortClassify]

/-- C3, witness: the cmd/main.go scenario on the sample pool aborts. -/
theorem C3_short_deadline_always_aborts_witness :
    samplePool.DB.closed = false ∧ (600000000000 : Int) < 900000000000 ∧
    samplePool.SimulateClientAbort .sleeps 900000000000 600000000000 =
      some (.wrap "client abort simulated" .deadlineExceeded) :=
  ⟨rfl, by decide,
    (C3_short_deadline_always_aborts samplePool 900000000000 600000000000
      rfl (by decide)).1⟩

/-- C4: on a pool on which Close has been called, every SimulateClientAbort
call fails — never the nil return of success — and the returned error is
the pool-closed error of database/sql (reachable by errors.Is through the
query-failed wrap of pool.go), never the deadline or client-abort kind. -/
theorem C4_closed_pool_rejects_queries (p : DBPool) (reply : StoreReply)
    (qd aa : Int) :
    (p.Close).1.SimulateClientAbort reply qd aa =
      some (.wrap "query failed" .databaseClosed) ∧
    errorsIs (.wrap "query failed" .databaseClosed) .databaseClosed = true ∧
    errorsIs (.wrap "query failed" .databaseClosed) .deadlineExceeded = false ∧
    isClientAbortError ((p.Close).1.SimulateClientAbort reply qd aa) = false ∧
    (p.Close).1.SimulateClientAbort reply qd aa ≠ none := by
  refine ⟨?_, by decide, by decide, ?_, ?_⟩ <;>
    simp [DBPool.Close, DBPool.SimulateClientAbort, SQLDB.queryContext,
      abortClassify, isClientAbortError]

/-- C4, witness: the closed sample pool rejects the cmd/main.go query
with the wrapped pool-closed error. -/
theorem C4_closed_pool_rejects_queries_witness :
    (samplePool.Close).1.SimulateClientAbort .sleeps 900000000000 600000000000 =
      some (.wrap "query failed" .databaseClosed) :=
  (C4_closed_pool_rejects_queries samplePool .sleeps 900000000000 600000000000).1

/-- C5: NewDBPool fails exactly when sql.Open rejects the target or the
ping probe fails; when neither happens it returns a pool wrapping the
fresh handle with all four configured limits applied, and those four
limits on the configured handle are precisely the PoolConfig fields. -/
theorem C5_new_pool_construction (w : World) (config : PoolConfig) :
    ((NewDBPool w config).err.isSome ↔ (w.openErr.isSome ∨ w.pingErr.isSome)) ∧
    ((NewDBPool w config).pool.isSome ↔ ¬(w.openErr.isSome ∨ w.pingErr.isSome)) ∧
    (w.openErr = none → w.pingErr = none →
      NewDBPool w config =
        ⟨some ⟨configuredDB config⟩, none, some (configuredDB config)⟩) ∧
    (configuredDB config).maxOpenConns = config.MaxOpenConns ∧
    (configuredDB config).maxIdleConns = config.MaxIdleConns ∧
    (configuredDB config).connMaxLifetime = config.ConnMaxLifetime ∧
    (configuredDB config).connMaxIdleTime = config.ConnMaxIdleTime := by
  rcases w with ⟨oe, pe⟩
  cases oe with
  | some m =>
    refine ⟨by simp [NewDBPool, sqlOpen], by simp [NewDBPool, sqlOpen], ?_, rfl, rfl, rfl, rfl⟩
    intro hoe
    exact absurd hoe (by simp)
  | none =>
    cases pe with
    | some m =>
      refine ⟨?_, ?_, ?_, rfl, rfl, rfl, rfl⟩
      · simp [NewDBPool, sqlOpen, SQLDB.Ping, freshDB]
      · simp [NewDBPool, sqlOpen, SQLDB.Ping, freshDB]
      · intro _ hpe
        exact absurd hpe (by simp)
    | none =>
      refine ⟨?_, ?_, ?_, rfl, rfl, rfl, rfl⟩
      · simp [NewDBPool, sqlOpen, SQLDB.Ping, freshDB]
      · simp [NewDBPool, sqlOpen, SQLDB.Ping, freshDB]
      · intro _ _
        rfl

/-- C5, witness: with a well-formed target and a reachable store, the
cmd/main.go configuration yields the configured pool. -/
theorem C5_new_pool_construction_witness :
    NewDBPool ⟨none, none⟩ mainConfig =
      ⟨some ⟨configuredDB mainConfig⟩, none, some (configuredDB mainConfig)⟩ :=
  (C5_new_pool_construction ⟨none, none⟩ mainConfig).2.2.1 rfl rfl

/-- C6: GetStats and PrintStats are pure reads: any number of PrintStats
calls returns the pool unchanged, a single PrintStats call returns the
pool unchanged, and GetStats is exactly the snapshot of the current
counters of the underlying handle (neither operation can return an
error — their types carry none). -/
theorem C6_stats_are_pure_reads (p : DBPool) (n : Nat) :
    (printStatsIter n p).2 = p ∧ (p.PrintStats).2 = p ∧ p.GetStats = p.DB.Stats := by
  refine ⟨?_, rfl, rfl⟩
  induction n with
  | zero => rfl
  | succ k ih => simpa [printStatsIter, DBPool.PrintStats] using ih

/-- C7: whenever pool construction fails (malformed target or failed
probe), cmd/main.go aborts fatally while still Starting: it emits no
events at all — in particular the simulator is never launched and no
stats poll ever happens — for any number of would-be ticker ticks. -/
theorem C7_construction_failure_is_fatal (w : World) (ticks : Nat)
    (h : w.openErr.isSome ∨ w.pingErr.isSome) :
    (∃ e, mainGo w ticks = (.fatalStart e, [])) ∧
    Event.simulatorLaunched ∉ (mainGo w ticks).2 ∧
    Event.statsPrinted ∉ (mainGo w ticks).2 := by
  rcases w with ⟨oe, pe⟩
  cases oe with
  | some m =>
    refine ⟨⟨.wrap "failed to open database" (.openError m), rfl⟩, ?_, ?_⟩ <;> simp [mainGo, NewDBPool, sqlOpen]
  | none =>
    cases pe with
    | some m =>
      refine ⟨⟨.wrap "failed to ping database" (.pingError m), rfl⟩, ?_, ?_⟩ <;>
        simp [mainGo, NewDBPool, sqlOpen, SQLDB.Ping, freshDB]
    | none =>
      exact absurd h (by simp)

/-- C7, witness: a malformed DSN aborts the run with no events, even if
the ticker would have fired three times. -/
theorem C7_construction_failure_is_fatal_witness :
    ((⟨some "invalid DSN", none⟩ : World).openErr.isSome ∨
      (⟨some "invalid DSN", none⟩ : World).pingErr.isSome) ∧
    (∃ e, mainGo ⟨some "invalid DSN", none⟩ 3 = (.fatalStart e, [])) :=
  ⟨Or.inl rfl,
    (C7_construction_failure_is_fatal ⟨some "invalid DSN", none⟩ 3 (Or.inl rfl)).1⟩

/-- C8: the classification in SimulateClientAbort compares the error to
the context.DeadlineExceeded sentinel with ==, not errors.Is: every error
that wraps the sentinel without being the sentinel itself is classified
as a generic query failure, never as a client abort. -/
theorem C8_sentinel_compared_by_identity (e : GoError)
    (_hwraps : errorsIs e .deadlineExceeded = true)
    (hne : e ≠ .deadlineExceeded) :
    abortClassify e = .wrap "query failed" e ∧
    isQueryFailedError (some (abortClassify e)) = true ∧
    isClientAbortError (some (abortClassify e)) = false := by
  have hcl : abortClassify e = .wrap "query failed" e := by
    simp [abortClassify, hne]
  refine ⟨hcl, ?_, ?_⟩ <;> rw [hcl] <;> simp [isQueryFailedError, isClientAbortError]

/-- C8, witness: a driver-style error wrapping the sentinel wraps it in
the errors.Is sense, differs from it, and is classified as query failure. -/
theorem C8_sentinel_compared_by_identity_witness :
    errorsIs (.wrap "driver timeout" .deadlineExceeded) .deadlineExceeded = true ∧
    (GoError.wrap "driver timeout" .deadlineExceeded ≠ .deadlineExceeded) ∧
    abortClassify (.wrap "driver timeout" .deadlineExceeded) =
      .wrap "query failed" (.wrap "driver timeout" .deadlineExceeded) :=
  ⟨by decide, by decide,
    (C8_sentinel_compared_by_identity (.wrap "driver timeout" .deadlineExceeded)
      (by decide) (by decide)).1⟩

/-- C9: when the ping probe fails (and the open succeeded), NewDBPool
returns no pool and a non-nil error, yet the handle it opened and
configured is left behind still open: the error path never calls Close
on it, leaking the allocated resource. -/
theorem C9_ping_failure_leaks_open_handle (w : World) (config : PoolConfig)
    (hopen : w.openErr = none) (hping : w.pingErr.isSome) :
    (NewDBPool w config).pool = none ∧
    (NewDBPool w config).err.isSome ∧
    (NewDBPool w config).openedHandle = some (configuredDB config) ∧
    (configuredDB config).closed = false := by
  rcases w with ⟨oe, pe⟩
  subst hopen
  cases pe with
  | none => exact absurd hping (by simp)
  | some m =>
    refine ⟨?_, ?_, ?_, rfl⟩ <;> simp [NewDBPool, sqlOpen, SQLDB.Ping, freshDB, configuredDB]

/-- C9, witness: a refused connection during the probe, with the
cmd/main.go configuration, leaves the configured handle open. -/
theorem C9_ping_failure_leaks_open_handle_witness :
    (⟨none, some "connection refused"⟩ : World).openErr = none ∧
    (⟨none, some "connection refused"⟩ : World).pingErr.isSome ∧
    (NewDBPool ⟨none, some "connection refused"⟩ mainConfig).openedHandle =
      some (configuredDB mainConfig) :=
  ⟨rfl, rfl,
    (C9_ping_failure_leaks_open_handle ⟨none, some "connection refused"⟩ mainConfig
      rfl rfl).2.2.1⟩

/-- C10: SimulateMultipleClientAborts does not validate the client count.
Run against a fresh WaitGroup (counter 0): with numClients = 0 it spawns
no client, records no outcome and leaves the counter at 0, so a caller
that waits returns immediately; with any negative numClients the
wg.Add(numClients) drives the counter below zero, which panics with the
negative-counter message. -/
theorem C10_client_count_not_validated (p : DBPool) (replies : Nat → StoreReply)
    (qd aa : Int) (numClients : Int) (h : numClients ≤ 0) :
    p.SimulateMultipleClientAborts numClients replies qd aa 0 =
      (if numClients = 0 then .ok ⟨0, []⟩
       else .error "sync: negative WaitGroup counter") := by
  by_cases h0 : numClients = 0
  · subst h0
    simp [DBPool.SimulateMultipleClientAborts, wgAddCheck]
  · have hneg : numClients < 0 := by omega
    simp [DBPool.SimulateMultipleClientAborts, wgAddCheck, hneg, h0]

/-- C10, witness: numClients = -3 on the sample pool panics with the
negative WaitGroup counter message. -/
theorem C10_client_count_not_validated_witness :
    (-3 : Int) ≤ 0 ∧
    samplePool.SimulateMultipleClientAborts (-3) (fun _ => .sleeps)
        900000000000 600000000000 0 =
      (if (-3 : Int) = 0 then .ok ⟨0, []⟩
       else .error "sync: negative WaitGroup counter") :=
  ⟨by decide,
    C10_client_count_not_validated samplePool (fun _ => .sleeps)
      900000000000 600000000000 (-3) (by decide)⟩

end GoBackendPractice
